import Mathlib

/-!
Shallow embedding of the Cyber-Cat agent simulation engine
(src-tauri/src/state/{physiological,relationship,emotion,mod}.rs and
src-tauri/src/behavior/mod.rs).

Modelling conventions:
* `f32` scalars are modelled as `ℚ`.  Every constant appearing in the
  engine is a small decimal (0.1, 0.2, 0.3, 0.5, 2, 3, 30, ...) and every
  operation is an addition or subtraction followed by a clamp, so the
  rational model is exact for them.
* `u64`/`u32` are modelled as `ℕ`; the `as u32` narrowing cast in
  `tick`/`minutes_since_interaction` is modelled by an explicit `% 2 ^ 32`.
  The unchecked `u64` subtractions `now - last_interaction_ts` and
  `now - interaction_count_reset_ts` are modelled by truncated `ℕ`
  subtraction in the total functions, and by `checkedSub` (returning
  `Option`) where partiality itself is under study.
* The impure clock (`unix_now()`) becomes an explicit `now : ℕ` argument.
* The impure random source `rand_f32()` becomes an explicit stream
  `rand : ℕ → ℚ` of draws, `rand i` being the value of the `i`-th call
  performed by the function; `rand_f32` produces `(mixed % 10000)/10000`,
  so the uniform draw is also discretised as `k / 10000` for `k < 10000`
  when counting probability weights.
-/

/-- Layer 1: physiological state (`PhysiologicalState` in physiological.rs). -/
structure PhysiologicalState where
  energy : ℚ
  hunger : ℚ
  sleepiness : ℚ
deriving DecidableEq

/-- `PhysiologicalState::new`: energy 80, hunger 20, sleepiness 10. -/
def PhysiologicalState.new : PhysiologicalState :=
  { energy := 80, hunger := 20, sleepiness := 10 }

/-- `PhysiologicalState::tick(is_sleeping)`: sleeping recovers energy (+2, clamp 100)
and drains sleepiness (-3, clamp 0); awake drains energy (-0.5, clamp 0) and
raises sleepiness (+0.2, clamp 100); hunger always rises (+0.3, clamp 100). -/
def PhysiologicalState.tick (p : PhysiologicalState) (is_sleeping : Bool) :
    PhysiologicalState :=
  let p1 :=
    if is_sleeping then
      { p with energy := min (p.energy + 2) 100,
               sleepiness := max (p.sleepiness - 3) 0 }
    else
      { p with energy := max (p.energy - 0.5) 0,
               sleepiness := min (p.sleepiness + 0.2) 100 }
  { p1 with hunger := min (p1.hunger + 0.3) 100 }

/-- `PhysiologicalState::feed`: hunger -= 30, clamp 0. -/
def PhysiologicalState.feed (p : PhysiologicalState) : PhysiologicalState :=
  { p with hunger := max (p.hunger - 30) 0 }

/-- Layer 3: relationship state (`RelationshipState` in relationship.rs). -/
structure RelationshipState where
  trust : ℚ
  intimacy : ℚ
  understanding : ℚ
deriving DecidableEq

/-- `RelationshipState::new`: trust 10, intimacy 5, understanding 0. -/
def RelationshipState.new : RelationshipState :=
  { trust := 10, intimacy := 5, understanding := 0 }

/-- `RelationshipState::on_positive_interaction`: trust += 0.5 (clamp 100),
intimacy += 0.8 (clamp 100). -/
def RelationshipState.on_positive_interaction (r : RelationshipState) :
    RelationshipState :=
  { r with trust := min (r.trust + 0.5) 100,
           intimacy := min (r.intimacy + 0.8) 100 }

/-- `RelationshipState::on_conversation`: understanding += 1 (clamp 100),
intimacy += 0.3 (clamp 100). -/
def RelationshipState.on_conversation (r : RelationshipState) :
    RelationshipState :=
  { r with understanding := min (r.understanding + 1) 100,
           intimacy := min (r.intimacy + 0.3) 100 }

/-- `RelationshipState::on_neglect`: trust -= 0.1 (clamp 0),
intimacy -= 0.2 (clamp 0). -/
def RelationshipState.on_neglect (r : RelationshipState) : RelationshipState :=
  { r with trust := max (r.trust - 0.1) 0,
           intimacy := max (r.intimacy - 0.2) 0 }

/-- Layer 2: the seven emotions (`Emotion` in emotion.rs). -/
inductive Emotion where
  | Happy
  | Calm
  | Curious
  | Playful
  | Bored
  | Irritated
  | Down
deriving DecidableEq

/-- `Emotion::transition(has_interaction, minutes_since_interaction, energy, intimacy)`,
translated arm for arm from the `match self` in emotion.rs. -/
def Emotion.transition (e : Emotion) (has_interaction : Bool)
    (minutes_since_interaction : ℕ) (energy intimacy : ℚ) : Emotion :=
  match e with
  | .Calm =>
      if has_interaction = true ∧ 50 < energy then .Happy
      else if 120 < minutes_since_interaction then .Bored
      else .Calm
  | .Happy =>
      if 60 < minutes_since_interaction then .Calm else .Happy
  | .Bored =>
      if has_interaction = true then .Happy
      else if 240 < minutes_since_interaction then
        if 40 < intimacy then .Irritated else .Down
      else .Bored
  | .Irritated =>
      if 30 < minutes_since_interaction ∧ has_interaction = false then .Calm
      else .Irritated
  | .Down =>
      if has_interaction = true ∧ 30 < intimacy then .Calm else .Down
  | .Curious =>
      if 10 < minutes_since_interaction then .Calm else .Curious
  | .Playful =>
      if energy < 40 then .Calm
      else if 30 < minutes_since_interaction then .Bored
      else .Playful

/-- The aggregate agent state (`SophieState` in state/mod.rs). -/
structure SophieState where
  physiological : PhysiologicalState
  emotion : Emotion
  relationship : RelationshipState
  is_sleeping : Bool
  last_interaction_ts : ℕ
  recent_interaction_count : ℕ
  interaction_count_reset_ts : ℕ
deriving DecidableEq

/-- `SophieState::new()`, with the impure `unix_now()` passed as `now`. -/
def SophieState.new (now : ℕ) : SophieState :=
  { physiological := PhysiologicalState.new
    emotion := .Calm
    relationship := RelationshipState.new
    is_sleeping := false
    last_interaction_ts := now
    recent_interaction_count := 0
    interaction_count_reset_ts := now }

/-- `SophieState::tick()`, with `unix_now()` passed as `now`.  Steps in source
order: minutes since interaction (with the `as u32` cast), lazy reset of the
short-window interaction counter after 600 s, physiological tick, the two
sleep/wake edges, the emotion transition (using the just-updated energy), and
the neglect penalty after 180 minutes. -/
def SophieState.tick (s : SophieState) (now : ℕ) : SophieState :=
  let minutes_since_interaction := ((now - s.last_interaction_ts) / 60) % 2 ^ 32
  let s1 :=
    if 600 < now - s.interaction_count_reset_ts then
      { s with recent_interaction_count := 0, interaction_count_reset_ts := now }
    else s
  let s2 := { s1 with physiological := s1.physiological.tick s1.is_sleeping }
  let s3 :=
    if s2.is_sleeping = false ∧ 80 < s2.physiological.sleepiness then
      { s2 with is_sleeping := true }
    else s2
  let s4 :=
    if s3.is_sleeping = true ∧ s3.physiological.sleepiness < 5 then
      { s3 with is_sleeping := false }
    else s3
  let has_interaction := decide (minutes_since_interaction < 2)
  let s5 := { s4 with
    emotion := s4.emotion.transition has_interaction minutes_since_interaction
      s4.physiological.energy s4.relationship.intimacy }
  if 180 < minutes_since_interaction then
    { s5 with relationship := s5.relationship.on_neglect }
  else s5

/-- `SophieState::record_interaction()`, with `unix_now()` passed as `now`.
The `u32` increment of `recent_interaction_count` is modelled modulo `2 ^ 32`. -/
def SophieState.record_interaction (s : SophieState) (now : ℕ) : SophieState :=
  let s1 := { s with
    last_interaction_ts := now
    recent_interaction_count := (s.recent_interaction_count + 1) % 2 ^ 32 }
  if s1.is_sleeping then
    let s2 :=
      if 3 < s1.recent_interaction_count then { s1 with emotion := .Irritated }
      else s1
    if 1 < s2.recent_interaction_count then { s2 with is_sleeping := false }
    else s2
  else s1

/-- `SophieState::minutes_since_interaction()`, with `unix_now()` passed as `now`. -/
def SophieState.minutes_since_interaction (s : SophieState) (now : ℕ) : ℕ :=
  ((now - s.last_interaction_ts) / 60) % 2 ^ 32

/-- Checked `u64` subtraction: `a - b` when it does not underflow, `none`
when it would (a debug-build Rust subtraction panics there). -/
def checkedSub (a b : ℕ) : Option ℕ :=
  if b ≤ a then some (a - b) else none

/-- `SophieState::minutes_since_interaction()` with the `now - last_interaction_ts`
subtraction checked for underflow. -/
def SophieState.minutes_since_interactionChecked (s : SophieState) (now : ℕ) :
    Option ℕ :=
  (checkedSub now s.last_interaction_ts).map (fun d => (d / 60) % 2 ^ 32)

/-- `SophieState::tick()` with both `u64` subtractions
(`now - last_interaction_ts` and `now - interaction_count_reset_ts`) checked
for underflow; when neither underflows it behaves as `SophieState.tick`. -/
def SophieState.tickChecked (s : SophieState) (now : ℕ) : Option SophieState :=
  match checkedSub now s.last_interaction_ts,
        checkedSub now s.interaction_count_reset_ts with
  | some _, some _ => some (s.tick now)
  | _, _ => none

/-- The six observable behaviors (`Behavior` in behavior/mod.rs). -/
inductive Behavior where
  | Idle
  | Sleep
  | Walk
  | Alert
  | Sit
  | Run
deriving DecidableEq

/-- `random_daily_behavior()` with its single `rand_f32()` draw passed as `r`. -/
def random_daily_behavior (r : ℚ) : Behavior :=
  if r < 0.35 then .Idle
  else if r < 0.55 then .Sit
  else if r < 0.7 then .Walk
  else if r < 0.85 then .Alert
  else .Idle

/-- The emotion-driven arm of `decide_behavior` (the `match state.emotion`
reached after the four precedence guards), with `rand i` the value of the
`i`-th `rand_f32()` call performed inside the arm. -/
def emotion_driven_behavior (s : SophieState) (hour : ℕ) (rand : ℕ → ℚ) :
    Behavior :=
  match s.emotion with
  | .Bored =>
      if rand 0 < 0.3 then .Walk
      else if rand 0 < 0.5 then .Run
      else .Alert
  | .Happy =>
      if 50 < s.relationship.intimacy ∧ rand 0 < 0.3 then .Walk
      else if rand 0 < 0.5 then .Idle
      else .Sit
  | .Irritated => .Sit
  | .Down => .Sleep
  | .Curious => .Alert
  | .Playful => if rand 0 < 0.5 then .Run else .Walk
  | .Calm =>
      if (5 ≤ hour ∧ hour < 8) ∨ (17 ≤ hour ∧ hour < 20) then
        if 60 < s.physiological.energy then
          if rand 0 < 0.4 then .Walk else random_daily_behavior (rand 1)
        else random_daily_behavior (rand 0)
      else random_daily_behavior (rand 0)

/-- `decide_behavior(state, hour)` from behavior/mod.rs, the draws of
`rand_f32()` passed as the stream `rand`. -/
def decide_behavior (s : SophieState) (hour : ℕ) (rand : ℕ → ℚ) : Behavior :=
  if s.is_sleeping then .Sleep
  else if 70 < s.physiological.sleepiness then .Sleep
  else if s.physiological.energy < 20 then .Sit
  else if 85 < s.physiological.hunger then .Walk
  else emotion_driven_behavior s hour rand

/-- The public mutating operations of the engine, as invoked from lib.rs:
`tick` and `record_interaction` carry the wall clock, `feed` and the
relationship events act on the owned sub-states. -/
inductive Op where
  | tick (now : ℕ)
  | feed
  | on_positive_interaction
  | on_conversation
  | on_neglect
  | record_interaction (now : ℕ)

/-- Apply one public operation to the aggregate state. -/
def SophieState.apply (s : SophieState) (op : Op) : SophieState :=
  match op with
  | .tick now => s.tick now
  | .feed => { s with physiological := s.physiological.feed }
  | .on_positive_interaction =>
      { s with relationship := s.relationship.on_positive_interaction }
  | .on_conversation =>
      { s with relationship := s.relationship.on_conversation }
  | .on_neglect => { s with relationship := s.relationship.on_neglect }
  | .record_interaction now => s.record_interaction now

/-- Apply a finite sequence of public operations, oldest first. -/
def SophieState.applyOps (s : SophieState) (ops : List Op) : SophieState :=
  ops.foldl SophieState.apply s

/-- All three physiological scalars lie in `[0, 100]`. -/
def PhysiologicalState.inBounds (p : PhysiologicalState) : Prop :=
  0 ≤ p.energy ∧ p.energy ≤ 100 ∧
  0 ≤ p.hunger ∧ p.hunger ≤ 100 ∧
  0 ≤ p.sleepiness ∧ p.sleepiness ≤ 100

/-- All three relationship scalars lie in `[0, 100]`. -/
def RelationshipState.inBounds (r : RelationshipState) : Prop :=
  0 ≤ r.trust ∧ r.trust ≤ 100 ∧
  0 ≤ r.intimacy ∧ r.intimacy ≤ 100 ∧
  0 ≤ r.understanding ∧ r.understanding ≤ 100

/-- All six scalars of the aggregate lie in `[0, 100]`. -/
def SophieState.inBounds (s : SophieState) : Prop :=
  s.physiological.inBounds ∧ s.relationship.inBounds

/-- Number of the 10000 grid draws `k / 10000` (the exact values `rand_f32`
can produce) on which `decide_behavior` returns `b`, the whole draw stream
being held at the same grid point. -/
def behaviorCount (s : SophieState) (hour : ℕ) (b : Behavior) : ℕ :=
  ((Finset.range 10000).filter
    (fun k : ℕ => decide_behavior s hour (fun _ => (k : ℚ) / 10000) = b)).card

/-- The transition table of spec section 4.3, written from the spec's words
(rows top to bottom per current state, first matching guard wins, else stay);
to be compared against `Emotion.transition`, which is translated from the
source. -/
def transitionSpecTable (e : Emotion) (has_interaction : Bool)
    (minutes : ℕ) (energy intimacy : ℚ) : Emotion :=
  match e with
  | .Calm =>
      if has_interaction = true ∧ 50 < energy then .Happy
      else if 120 < minutes then .Bored
      else .Calm
  | .Happy => if 60 < minutes then .Calm else .Happy
  | .Bored =>
      if has_interaction = true then .Happy
      else if 240 < minutes ∧ 40 < intimacy then .Irritated
      else if 240 < minutes ∧ intimacy ≤ 40 then .Down
      else .Bored
  | .Irritated =>
      if 30 < minutes ∧ ¬ has_interaction = true then .Calm else .Irritated
  | .Down => if has_interaction = true ∧ 30 < intimacy then .Calm else .Down
  | .Curious => if 10 < minutes then .Calm else .Curious
  | .Playful =>
      if energy < 40 then .Calm
      else if 30 < minutes then .Bored
      else .Playful

/-! ### Concrete states used by witnesses and counterexamples -/

/-- A mid-range awake agent: every scalar 50, emotion Calm, timestamps 0. -/
def midState : SophieState :=
  { physiological := { energy := 50, hunger := 50, sleepiness := 50 }
    emotion := .Calm
    relationship := { trust := 50, intimacy := 50, understanding := 50 }
    is_sleeping := false
    last_interaction_ts := 0
    recent_interaction_count := 0
    interaction_count_reset_ts := 0 }

/-- Mid-range state, emotion Happy, intimacy 50 (not above the 50 threshold). -/
def happyLow : SophieState := { midState with emotion := .Happy }

/-- Mid-range state, emotion Happy, intimacy 51 (above the 50 threshold). -/
def happyHigh : SophieState :=
  { midState with
    emotion := .Happy
    relationship := { trust := 50, intimacy := 51, understanding := 50 } }

/-- Mid-range state, currently sleeping. -/
def sleepingMid : SophieState := { midState with is_sleeping := true }

/-- Awake state with sleepiness 75 (above the 70 behavior guard). -/
def sleepyMid : SophieState :=
  { midState with physiological := { energy := 50, hunger := 50, sleepiness := 75 } }

/-- Awake state with energy 10 (below the 20 behavior guard). -/
def tiredMid : SophieState :=
  { midState with physiological := { energy := 10, hunger := 50, sleepiness := 50 } }

/-- Awake state with hunger 90 (above the 85 behavior guard). -/
def hungryMid : SophieState :=
  { midState with physiological := { energy := 50, hunger := 90, sleepiness := 50 } }

/-- Awake state with sleepiness 79 before the tick. -/
def awake79 : SophieState :=
  { midState with physiological := { energy := 50, hunger := 50, sleepiness := 79 } }

/-- Awake state with sleepiness 80.9 before the tick (81.1 after the update). -/
def awake809 : SophieState :=
  { midState with physiological := { energy := 50, hunger := 50, sleepiness := 80.9 } }

/-- Sleeping state with sleepiness 9 before the tick (6 after the update). -/
def asleep9 : SophieState :=
  { midState with
    physiological := { energy := 50, hunger := 50, sleepiness := 9 }
    is_sleeping := true }

/-- Sleeping state with sleepiness 6 before the tick (3 after the update). -/
def asleep6 : SophieState :=
  { midState with
    physiological := { energy := 50, hunger := 50, sleepiness := 6 }
    is_sleeping := true }

/-- Sleeping state with sleepiness 4 before the tick (0 after the update). -/
def asleep4 : SophieState :=
  { midState with
    physiological := { energy := 50, hunger := 50, sleepiness := 4 }
    is_sleeping := true }

/-- Sleeping state that has already been disturbed three times in the
current window. -/
def disturbed : SophieState :=
  { midState with
    is_sleeping := true
    recent_interaction_count := 3 }

/-- State whose last-interaction timestamp (100) lies in the future of the
clock values used with it. -/
def futureTs : SophieState := { midState with last_interaction_ts := 100 }

/-- State whose counter-reset timestamp (100) lies in the future of the
clock values used with it. -/
def futureReset : SophieState :=
  { midState with interaction_count_reset_ts := 100 }

/-! ### Characterization lemmas for the aggregate operations -/

lemma tick_physiological (s : SophieState) (now : ℕ) :
    (s.tick now).physiological = s.physiological.tick s.is_sleeping := by
  simp only [SophieState.tick]
  split_ifs <;> rfl

lemma tick_relationship (s : SophieState) (now : ℕ) :
    (s.tick now).relationship =
      if 180 < s.minutes_since_interaction now then s.relationship.on_neglect
      else s.relationship := by
  simp only [SophieState.tick, SophieState.minutes_since_interaction]
  split_ifs <;> rfl

lemma tick_is_sleeping (s : SophieState) (now : ℕ) :
    (s.tick now).is_sleeping =
      if s.is_sleeping = false then
        (if 80 < (s.physiological.tick s.is_sleeping).sleepiness then true else false)
      else
        (if (s.physiological.tick s.is_sleeping).sleepiness < 5 then false else true) := by
  simp only [SophieState.tick]
  split_ifs <;> simp_all <;> linarith

lemma tick_emotion (s : SophieState) (now : ℕ) :
    (s.tick now).emotion =
      s.emotion.transition (decide (s.minutes_since_interaction now < 2))
        (s.minutes_since_interaction now)
        (s.physiological.tick s.is_sleeping).energy s.relationship.intimacy := by
  simp only [SophieState.tick, SophieState.minutes_since_interaction]
  split_ifs <;> rfl

lemma record_interaction_emotion (s : SophieState) (now : ℕ) :
    (s.record_interaction now).emotion =
      if s.is_sleeping = true ∧ 3 < (s.recent_interaction_count + 1) % 2 ^ 32 then
        Emotion.Irritated
      else s.emotion := by
  simp only [SophieState.record_interaction]
  split_ifs <;> simp_all <;> omega

lemma record_interaction_is_sleeping (s : SophieState) (now : ℕ) :
    (s.record_interaction now).is_sleeping =
      if s.is_sleeping = true ∧ 1 < (s.recent_interaction_count + 1) % 2 ^ 32 then
        false
      else s.is_sleeping := by
  simp only [SophieState.record_interaction]
  split_ifs <;> simp_all <;> omega

lemma record_interaction_count (s : SophieState) (now : ℕ) :
    (s.record_interaction now).recent_interaction_count =
      (s.recent_interaction_count + 1) % 2 ^ 32 := by
  simp only [SophieState.record_interaction]
  split_ifs <;> rfl

lemma record_interaction_ts (s : SophieState) (now : ℕ) :
    (s.record_interaction now).last_interaction_ts = now := by
  simp only [SophieState.record_interaction]
  split_ifs <;> rfl

lemma record_interaction_physiological (s : SophieState) (now : ℕ) :
    (s.record_interaction now).physiological = s.physiological := by
  simp only [SophieState.record_interaction]
  split_ifs <;> rfl

lemma record_interaction_relationship (s : SophieState) (now : ℕ) :
    (s.record_interaction now).relationship = s.relationship := by
  simp only [SophieState.record_interaction]
  split_ifs <;> rfl

/-! ### Bounds preservation -/

lemma clampHi_mem {x : ℚ} (h : 0 ≤ x) : 0 ≤ min x 100 ∧ min x 100 ≤ 100 :=
  ⟨le_min h (by norm_num), min_le_right x 100⟩

lemma clampLo_mem {x : ℚ} (h : x ≤ 100) : 0 ≤ max x 0 ∧ max x 0 ≤ 100 :=
  ⟨le_max_right x 0, max_le h (by norm_num)⟩

lemma PhysiologicalState.tick_inBounds {p : PhysiologicalState} (slp : Bool)
    (h : p.inBounds) : (p.tick slp).inBounds := by
  obtain ⟨he0, he1, hh0, hh1, hs0, hs1⟩ := h
  cases slp
  · simp only [PhysiologicalState.tick, PhysiologicalState.inBounds]
    norm_num
    exact ⟨by linarith, by linarith, by linarith⟩
  · simp only [PhysiologicalState.tick, PhysiologicalState.inBounds]
    norm_num
    exact ⟨by linarith, by linarith, by linarith⟩

lemma PhysiologicalState.feed_inBounds {p : PhysiologicalState}
    (h : p.inBounds) : p.feed.inBounds := by
  obtain ⟨he0, he1, hh0, hh1, hs0, hs1⟩ := h
  simp only [PhysiologicalState.feed, PhysiologicalState.inBounds]
  refine ⟨by linarith, by linarith, ?_, ?_, by linarith, by linarith⟩
  · exact (clampLo_mem (by linarith)).1
  · exact (clampLo_mem (by linarith)).2

lemma RelationshipState.on_positive_interaction_inBounds {r : RelationshipState}
    (h : r.inBounds) : r.on_positive_interaction.inBounds := by
  obtain ⟨ht0, ht1, hi0, hi1, hu0, hu1⟩ := h
  simp only [RelationshipState.on_positive_interaction, RelationshipState.inBounds]
  exact ⟨(clampHi_mem (by linarith)).1, (clampHi_mem (by linarith)).2,
         (clampHi_mem (by linarith)).1, (clampHi_mem (by linarith)).2,
         hu0, hu1⟩

lemma RelationshipState.on_conversation_inBounds {r : RelationshipState}
    (h : r.inBounds) : r.on_conversation.inBounds := by
  obtain ⟨ht0, ht1, hi0, hi1, hu0, hu1⟩ := h
  simp only [RelationshipState.on_conversation, RelationshipState.inBounds]
  exact ⟨ht0, ht1,
         (clampHi_mem (by linarith)).1, (clampHi_mem (by linarith)).2,
         (clampHi_mem (by linarith)).1, (clampHi_mem (by linarith)).2⟩

lemma RelationshipState.on_neglect_inBounds {r : RelationshipState}
    (h : r.inBounds) : r.on_neglect.inBounds := by
  obtain ⟨ht0, ht1, hi0, hi1, hu0, hu1⟩ := h
  simp only [RelationshipState.on_neglect, RelationshipState.inBounds]
  exact ⟨(clampLo_mem (by linarith)).1, (clampLo_mem (by linarith)).2,
         (clampLo_mem (by linarith)).1, (clampLo_mem (by linarith)).2,
         hu0, hu1⟩

lemma SophieState.tick_keeps_inBounds {s : SophieState} (now : ℕ) (h : s.inBounds) :
    (s.tick now).inBounds := by
  obtain ⟨hp, hr⟩ := h
  constructor
  · rw [tick_physiological]
    exact PhysiologicalState.tick_inBounds s.is_sleeping hp
  · rw [tick_relationship]
    split_ifs
    · exact RelationshipState.on_neglect_inBounds hr
    · exact hr

lemma SophieState.apply_inBounds {s : SophieState} (op : Op) (h : s.inBounds) :
    (s.apply op).inBounds := by
  obtain ⟨hp, hr⟩ := h
  cases op with
  | tick now => exact SophieState.tick_keeps_inBounds now ⟨hp, hr⟩
  | feed => exact ⟨PhysiologicalState.feed_inBounds hp, hr⟩
  | on_positive_interaction =>
      exact ⟨hp, RelationshipState.on_positive_interaction_inBounds hr⟩
  | on_conversation => exact ⟨hp, RelationshipState.on_conversation_inBounds hr⟩
  | on_neglect => exact ⟨hp, RelationshipState.on_neglect_inBounds hr⟩
  | record_interaction now =>
      refine ⟨?_, ?_⟩
      · simp only [SophieState.apply]
        rw [record_interaction_physiological]
        exact hp
      · simp only [SophieState.apply]
        rw [record_interaction_relationship]
        exact hr

lemma SophieState.applyOps_inBounds {s : SophieState} (ops : List Op)
    (h : s.inBounds) : (s.applyOps ops).inBounds := by
  induction ops generalizing s with
  | nil => exact h
  | cons op rest ih => exact ih (SophieState.apply_inBounds op h)

/-! ### Monotone understanding -/

lemma apply_understanding {s : SophieState} (op : Op)
    (h : s.relationship.understanding ≤ 100) :
    s.relationship.understanding ≤ (s.apply op).relationship.understanding ∧
      (s.apply op).relationship.understanding ≤ 100 := by
  cases op with
  | tick now =>
      have heq := tick_relationship s now
      simp only [SophieState.apply]
      rw [heq]
      split_ifs
      · exact ⟨le_refl _, h⟩
      · exact ⟨le_refl _, h⟩
  | feed => exact ⟨le_refl _, h⟩
  | on_positive_interaction => exact ⟨le_refl _, h⟩
  | on_conversation =>
      simp only [SophieState.apply, RelationshipState.on_conversation]
      exact ⟨le_min (by linarith) h, min_le_right _ _⟩
  | on_neglect => exact ⟨le_refl _, h⟩
  | record_interaction now =>
      have heq := record_interaction_relationship s now
      simp only [SophieState.apply]
      rw [heq]
      exact ⟨le_refl _, h⟩

lemma applyOps_understanding {s : SophieState} (ops : List Op)
    (h : s.relationship.understanding ≤ 100) :
    s.relationship.understanding ≤ (s.applyOps ops).relationship.understanding ∧
      (s.applyOps ops).relationship.understanding ≤ 100 := by
  induction ops generalizing s with
  | nil => exact ⟨le_refl _, h⟩
  | cons op rest ih =>
      obtain ⟨h1, h2⟩ := apply_understanding op h
      obtain ⟨h3, h4⟩ := ih h2
      exact ⟨le_trans h1 h3, h4⟩

/-! ### Claim theorems -/

/-- C1: for every AgentState whose six scalars start within `[0,100]` and every
finite sequence of `tick`, `feed`, `on_positive_interaction`, `on_conversation`,
`on_neglect` and `record_interaction` calls, energy, hunger, sleepiness, trust,
intimacy and understanding all stay within `[0,100]`. -/
theorem scalars_stay_in_bounds (s : SophieState) (ops : List Op)
    (h : s.inBounds) : (s.applyOps ops).inBounds :=
  SophieState.applyOps_inBounds ops h

/-- Witness for C1: the freshly created state is in bounds and stays there
under a concrete mixed sequence of operations. -/
theorem scalars_stay_in_bounds_witness :
    ((SophieState.new 0).applyOps
      [.feed, .tick 100, .record_interaction 200, .on_positive_interaction,
       .on_conversation, .on_neglect, .tick 100000]).inBounds :=
  scalars_stay_in_bounds (SophieState.new 0) _
    (by
      refine ⟨⟨?_, ?_, ?_, ?_, ?_, ?_⟩, ?_, ?_, ?_, ?_, ?_, ?_⟩ <;>
        norm_num [SophieState.new, PhysiologicalState.new, RelationshipState.new])

/-- C6: `understanding` is monotonically non-decreasing across any sequence of
the program's operations (`tick`, `record_interaction`,
`on_positive_interaction`, `on_conversation`, `on_neglect`, `feed`), given
that it starts at a value of at most 100 (its documented range). -/
theorem understanding_monotone (s : SophieState) (ops : List Op)
    (h : s.relationship.understanding ≤ 100) :
    s.relationship.understanding ≤ (s.applyOps ops).relationship.understanding :=
  (applyOps_understanding ops h).1

/-- Witness for C6: a fresh state under a concrete operation sequence. -/
theorem understanding_monotone_witness :
    (SophieState.new 0).relationship.understanding ≤
      ((SophieState.new 0).applyOps
        [.on_conversation, .tick 20000, .feed, .record_interaction 5,
         .on_neglect]).relationship.understanding :=
  understanding_monotone (SophieState.new 0) _
    (by norm_num [SophieState.new, RelationshipState.new])

/-! ### The Happy behavior arm -/

lemma happy_arm_pointwise {s : SophieState} (hour : ℕ) (rand : ℕ → ℚ)
    (hs : s.is_sleeping = false) (h1 : s.physiological.sleepiness ≤ 70)
    (h2 : 20 ≤ s.physiological.energy) (h3 : s.physiological.hunger ≤ 85)
    (he : s.emotion = .Happy) :
    decide_behavior s hour rand =
      if 50 < s.relationship.intimacy ∧ rand 0 < 0.3 then .Walk
      else if rand 0 < 0.5 then .Idle else .Sit := by
  simp only [decide_behavior, emotion_driven_behavior, hs, he]
  split_ifs <;> first | rfl | (exfalso; linarith) | simp_all

lemma grid_lt_iff (k n : ℕ) : ((k : ℚ) / 10000 < (n : ℚ) / 10000) ↔ k < n := by
  rw [div_lt_div_iff_of_pos_right (by norm_num)]
  exact Nat.cast_lt

lemma happy_count_Idle {s : SophieState} (hour : ℕ)
    (hs : s.is_sleeping = false) (h1 : s.physiological.sleepiness ≤ 70)
    (h2 : 20 ≤ s.physiological.energy) (h3 : s.physiological.hunger ≤ 85)
    (he : s.emotion = .Happy) :
    behaviorCount s hour .Idle =
      if 50 < s.relationship.intimacy then 2000 else 5000 := by
  have h3v : (0.3 : ℚ) = ((3000 : ℕ) : ℚ) / 10000 := by norm_num
  have h5v : (0.5 : ℚ) = ((5000 : ℕ) : ℚ) / 10000 := by norm_num
  unfold behaviorCount
  by_cases hi : 50 < s.relationship.intimacy
  · rw [if_pos hi]
    have hset : (Finset.range 10000).filter
        (fun k : ℕ => decide_behavior s hour (fun _ => (k : ℚ) / 10000) = .Idle) =
        Finset.Ico 3000 5000 := by
      ext k
      simp only [Finset.mem_filter, Finset.mem_range, Finset.mem_Ico,
        happy_arm_pointwise hour _ hs h1 h2 h3 he, h3v, h5v, grid_lt_iff, hi, true_and]
      split_ifs <;> simp <;> omega
    rw [hset, Nat.card_Ico]
  · rw [if_neg hi]
    have hset : (Finset.range 10000).filter
        (fun k : ℕ => decide_behavior s hour (fun _ => (k : ℚ) / 10000) = .Idle) =
        Finset.range 5000 := by
      ext k
      simp only [Finset.mem_filter, Finset.mem_range,
        happy_arm_pointwise hour _ hs h1 h2 h3 he, h3v, h5v, grid_lt_iff, hi, false_and,
        if_false]
      split_ifs <;> simp <;> omega
    rw [hset, Finset.card_range]

lemma happy_count_Walk {s : SophieState} (hour : ℕ)
    (hs : s.is_sleeping = false) (h1 : s.physiological.sleepiness ≤ 70)
    (h2 : 20 ≤ s.physiological.energy) (h3 : s.physiological.hunger ≤ 85)
    (he : s.emotion = .Happy) :
    behaviorCount s hour .Walk =
      if 50 < s.relationship.intimacy then 3000 else 0 := by
  have h3v : (0.3 : ℚ) = ((3000 : ℕ) : ℚ) / 10000 := by norm_num
  have h5v : (0.5 : ℚ) = ((5000 : ℕ) : ℚ) / 10000 := by norm_num
  unfold behaviorCount
  by_cases hi : 50 < s.relationship.intimacy
  · rw [if_pos hi]
    have hset : (Finset.range 10000).filter
        (fun k : ℕ => decide_behavior s hour (fun _ => (k : ℚ) / 10000) = .Walk) =
        Finset.range 3000 := by
      ext k
      simp only [Finset.mem_filter, Finset.mem_range,
        happy_arm_pointwise hour _ hs h1 h2 h3 he, h3v, h5v, grid_lt_iff, hi, true_and]
      split_ifs <;> simp <;> omega
    rw [hset, Finset.card_range]
  · rw [if_neg hi]
    have hset : (Finset.range 10000).filter
        (fun k : ℕ => decide_behavior s hour (fun _ => (k : ℚ) / 10000) = .Walk) =
        (∅ : Finset ℕ) := by
      ext k
      simp only [Finset.mem_filter, Finset.mem_range, Finset.not_mem_empty,
        happy_arm_pointwise hour _ hs h1 h2 h3 he, h3v, h5v, grid_lt_iff, hi, false_and,
        if_false, iff_false]
      split_ifs <;> simp
    rw [hset, Finset.card_empty]

/-- C2: the emotion transition function agrees with the spec's table on every
input (guards per current state top to bottom, first match wins, else stay),
and its result is always one of the 7 defined emotion values. -/
theorem transition_matches_spec_table (e : Emotion) (hi : Bool) (m : ℕ)
    (en intim : ℚ) :
    e.transition hi m en intim = transitionSpecTable e hi m en intim ∧
    (e.transition hi m en intim = .Happy ∨ e.transition hi m en intim = .Calm ∨
     e.transition hi m en intim = .Curious ∨ e.transition hi m en intim = .Playful ∨
     e.transition hi m en intim = .Bored ∨ e.transition hi m en intim = .Irritated ∨
     e.transition hi m en intim = .Down) := by
  constructor
  · cases e <;> simp only [Emotion.transition, transitionSpecTable] <;>
      split_ifs <;> first | rfl | simp_all
  · cases h : e.transition hi m en intim <;> simp

/-- C3: decide_behavior applies its guards in strict precedence: sleeping
always yields Sleep; otherwise sleepiness above 70 yields Sleep; otherwise
energy below 20 yields Sit; otherwise hunger above 85 yields Walk; only when
no guard fires does it branch on the emotion. -/
theorem decide_behavior_precedence (s : SophieState) (hour : ℕ) (rand : ℕ → ℚ) :
    (s.is_sleeping = true → decide_behavior s hour rand = .Sleep) ∧
    (s.is_sleeping = false → 70 < s.physiological.sleepiness →
      decide_behavior s hour rand = .Sleep) ∧
    (s.is_sleeping = false → s.physiological.sleepiness ≤ 70 →
      s.physiological.energy < 20 → decide_behavior s hour rand = .Sit) ∧
    (s.is_sleeping = false → s.physiological.sleepiness ≤ 70 →
      20 ≤ s.physiological.energy → 85 < s.physiological.hunger →
      decide_behavior s hour rand = .Walk) ∧
    (s.is_sleeping = false → s.physiological.sleepiness ≤ 70 →
      20 ≤ s.physiological.energy → s.physiological.hunger ≤ 85 →
      decide_behavior s hour rand = emotion_driven_behavior s hour rand) := by
  refine ⟨?_, ?_, ?_, ?_, ?_⟩ <;> intros <;>
    simp only [decide_behavior] <;>
    split_ifs <;> first | rfl | (exfalso; linarith) | simp_all

/-- Witness for C3: each precedence guard exercised on a concrete state. -/
theorem decide_behavior_precedence_witness :
    decide_behavior sleepingMid 12 (fun _ => 0) = .Sleep ∧
    decide_behavior sleepyMid 12 (fun _ => 0) = .Sleep ∧
    decide_behavior tiredMid 12 (fun _ => 0) = .Sit ∧
    decide_behavior hungryMid 12 (fun _ => 0) = .Walk ∧
    decide_behavior midState 12 (fun _ => 0) =
      emotion_driven_behavior midState 12 (fun _ => 0) :=
  ⟨(decide_behavior_precedence sleepingMid 12 (fun _ => 0)).1 rfl,
   (decide_behavior_precedence sleepyMid 12 (fun _ => 0)).2.1 rfl
     (by norm_num [sleepyMid]),
   (decide_behavior_precedence tiredMid 12 (fun _ => 0)).2.2.1 rfl
     (by norm_num [tiredMid]) (by norm_num [tiredMid]),
   (decide_behavior_precedence hungryMid 12 (fun _ => 0)).2.2.2.1 rfl
     (by norm_num [hungryMid]) (by norm_num [hungryMid]) (by norm_num [hungryMid]),
   (decide_behavior_precedence midState 12 (fun _ => 0)).2.2.2.2 rfl
     (by norm_num [midState]) (by norm_num [midState]) (by norm_num [midState])⟩

/-- C4 counterexample: an agent that is asleep at sleepiness 6 before the
tick does not stay asleep: the physiological update runs first and drops
sleepiness to 3, which is below the wake threshold 5, so one tick wakes it. -/
theorem sleep_edge_counterexample :
    asleep6.is_sleeping = true ∧ asleep6.physiological.sleepiness = 6 ∧
    (asleep6.tick 0).is_sleeping = false := by
  refine ⟨rfl, rfl, ?_⟩
  norm_num [SophieState.tick, PhysiologicalState.tick, Emotion.transition,
    asleep6, midState, min_def, max_def]

/-- C4 amended: after the physiological update, the only sleep/wake changes in
tick are the two edges (awake becomes sleeping iff the updated sleepiness
exceeds 80; sleeping becomes awake iff the updated sleepiness is below 5), and
the single conditional shows at most one edge fires per tick.  The concrete
asleep thresholds of the claim hold for the post-update sleepiness value:
awake at 79 before the tick stays awake, awake above 80 after the update
falls asleep, asleep at 6 after the update (9 before) stays asleep, asleep
at 4 before the tick wakes. -/
theorem sleep_wake_edges :
    (∀ (s : SophieState) (now : ℕ), (s.tick now).is_sleeping =
      if s.is_sleeping = false then
        (if 80 < (s.physiological.tick s.is_sleeping).sleepiness then true else false)
      else
        (if (s.physiological.tick s.is_sleeping).sleepiness < 5 then false else true)) ∧
    (awake79.tick 0).is_sleeping = false ∧
    (awake809.tick 0).is_sleeping = true ∧
    (asleep9.tick 0).is_sleeping = true ∧
    (asleep4.tick 0).is_sleeping = false := by
  refine ⟨tick_is_sleeping, ?_, ?_, ?_, ?_⟩ <;>
    norm_num [SophieState.tick, PhysiologicalState.tick, Emotion.transition,
      awake79, awake809, asleep9, asleep4, midState, min_def, max_def]

/-- C5: on a sleeping agent, record_interaction stores the clock in
last_interaction_ts, performs exactly the u32 increment of
recent_interaction_count (never resetting or decaying it), forces the emotion
to Irritated iff the incremented counter exceeds 3, and wakes the agent iff
the incremented counter exceeds 1. -/
theorem record_interaction_sleeping (s : SophieState) (now : ℕ)
    (h : s.is_sleeping = true) :
    (s.record_interaction now).last_interaction_ts = now ∧
    (s.record_interaction now).recent_interaction_count =
      (s.recent_interaction_count + 1) % 2 ^ 32 ∧
    (s.record_interaction now).emotion =
      (if 3 < (s.recent_interaction_count + 1) % 2 ^ 32 then .Irritated
       else s.emotion) ∧
    (s.record_interaction now).is_sleeping =
      (if 1 < (s.recent_interaction_count + 1) % 2 ^ 32 then false else true) := by
  refine ⟨record_interaction_ts s now, record_interaction_count s now, ?_, ?_⟩
  · rw [record_interaction_emotion]
    simp [h]
  · rw [record_interaction_is_sleeping]
    simp [h]

/-- Witness for C5: the fourth disturbance of a sleeping agent stamps the
clock, raises the counter to 4, forces Irritated and wakes it. -/
theorem record_interaction_sleeping_witness :
    (disturbed.record_interaction 5).last_interaction_ts = 5 ∧
    (disturbed.record_interaction 5).recent_interaction_count = 4 ∧
    (disturbed.record_interaction 5).emotion = .Irritated ∧
    (disturbed.record_interaction 5).is_sleeping = false := by
  have h := record_interaction_sleeping disturbed 5 rfl
  norm_num [disturbed, midState] at h
  exact h

/-- C7: tick applies the neglect penalty exactly when the computed
minutes-since-interaction exceeds 180 and otherwise leaves the relationship
untouched; concretely, with trust 50, intimacy 50 and 200 minutes since the
last interaction, one tick leaves trust 49.9 and intimacy 49.8. -/
theorem neglect_decay :
    (∀ (s : SophieState) (now : ℕ), (s.tick now).relationship =
      if 180 < s.minutes_since_interaction now then s.relationship.on_neglect
      else s.relationship) ∧
    midState.minutes_since_interaction 12000 = 200 ∧
    midState.relationship.trust = 50 ∧ midState.relationship.intimacy = 50 ∧
    (midState.tick 12000).relationship.trust = 49.9 ∧
    (midState.tick 12000).relationship.intimacy = 49.8 := by
  refine ⟨tick_relationship,
    by norm_num [SophieState.minutes_since_interaction, midState], rfl, rfl, ?_, ?_⟩ <;>
    norm_num [SophieState.tick, PhysiologicalState.tick, Emotion.transition,
      RelationshipState.on_neglect, midState, min_def, max_def]

/-- C9 counterexample: record_interaction is not tick, yet it changes the
Emotion field: on a sleeping agent already disturbed 3 times it forces
Irritated. -/
theorem emotion_outside_tick_counterexample :
    disturbed.emotion = .Calm ∧
    (disturbed.record_interaction 5).emotion = .Irritated ∧
    ¬ (disturbed.record_interaction 5).emotion = disturbed.emotion := by
  have h : (disturbed.record_interaction 5).emotion = .Irritated := by
    have h0 := record_interaction_emotion disturbed 5
    norm_num [disturbed, midState] at h0
    exact h0
  exact ⟨rfl, h, by rw [h]; simp [disturbed, midState]⟩

/-- C9 amended: the Emotion field changes only inside tick() or in the
sleeping branch of record_interaction(): feed and the three relationship
events never touch it; record_interaction leaves it unchanged except that it
forces Irritated when the agent is sleeping and the incremented counter
exceeds 3; and inside tick() the new emotion is the pure function
Emotion.transition of (current emotion, has_interaction,
minutes-since-interaction, updated energy, intimacy). -/
theorem emotion_update_characterized (s : SophieState) (now : ℕ) :
    (s.apply .feed).emotion = s.emotion ∧
    (s.apply .on_positive_interaction).emotion = s.emotion ∧
    (s.apply .on_conversation).emotion = s.emotion ∧
    (s.apply .on_neglect).emotion = s.emotion ∧
    ((s.record_interaction now).emotion =
      if s.is_sleeping = true ∧ 3 < (s.recent_interaction_count + 1) % 2 ^ 32
      then .Irritated else s.emotion) ∧
    ((s.tick now).emotion =
      s.emotion.transition (decide (s.minutes_since_interaction now < 2))
        (s.minutes_since_interaction now)
        (s.physiological.tick s.is_sleeping).energy s.relationship.intimacy) :=
  ⟨rfl, rfl, rfl, rfl, record_interaction_emotion s now, tick_emotion s now⟩

/-- C10: tick and minutes_since_interaction are safe exactly under the
precondition that both stored timestamps do not exceed the clock: then the
checked variants succeed and agree with the total model; a timestamp in the
future of the clock makes the corresponding u64 subtraction underflow and the
checked computation fail. -/
theorem tick_underflow_safety (s : SophieState) (now : ℕ) :
    ((s.last_interaction_ts ≤ now ∧ s.interaction_count_reset_ts ≤ now) →
      s.tickChecked now = some (s.tick now) ∧
      s.minutes_since_interactionChecked now =
        some (s.minutes_since_interaction now)) ∧
    (now < s.last_interaction_ts →
      s.tickChecked now = none ∧ s.minutes_since_interactionChecked now = none) ∧
    (now < s.interaction_count_reset_ts → s.tickChecked now = none) := by
  refine ⟨?_, ?_, ?_⟩
  · rintro ⟨hl, hr⟩
    constructor
    · simp [SophieState.tickChecked, checkedSub, hl, hr]
    · simp [SophieState.minutes_since_interactionChecked, checkedSub, hl,
        SophieState.minutes_since_interaction]
  · intro hl
    have hn : ¬ s.last_interaction_ts ≤ now := by omega
    constructor
    · simp [SophieState.tickChecked, checkedSub, hn]
    · simp [SophieState.minutes_since_interactionChecked, checkedSub, hn]
  · intro hr
    have hn : ¬ s.interaction_count_reset_ts ≤ now := by omega
    cases hcase : checkedSub now s.last_interaction_ts <;>
      simp [SophieState.tickChecked, checkedSub, hn, hcase]

/-- Witness for C10: with both timestamps 0 and clock 10 the checked tick
succeeds; with a timestamp 100 in the future of clock 10 it fails. -/
theorem tick_underflow_safety_witness :
    midState.tickChecked 10 = some (midState.tick 10) ∧
    futureTs.tickChecked 10 = none ∧
    futureTs.minutes_since_interactionChecked 10 = none ∧
    futureReset.tickChecked 10 = none :=
  ⟨((tick_underflow_safety midState 10).1 (by norm_num [midState])).1,
   ((tick_underflow_safety futureTs 10).2.1 (by norm_num [futureTs, midState])).1,
   ((tick_underflow_safety futureTs 10).2.1 (by norm_num [futureTs, midState])).2,
   (tick_underflow_safety futureReset 10).2.2 (by norm_num [futureReset, midState])⟩

/-- C8 counterexample: in the Happy arm with intimacy 50 (not above the
threshold) the code returns Idle on 5000 of the 10000 equiprobable grid draws
of its random source, a 50% probability, not the claimed 20%. -/
theorem happy_idle_probability_counterexample :
    behaviorCount happyLow 12 .Idle = 5000 ∧
    ¬ behaviorCount happyLow 12 .Idle = 2000 := by
  have h := @happy_count_Idle happyLow 12 rfl (by norm_num [happyLow, midState])
    (by norm_num [happyLow, midState]) (by norm_num [happyLow, midState]) rfl
  rw [if_neg (by norm_num [happyLow, midState])] at h
  exact ⟨h, by rw [h]; norm_num⟩

/-- C8 amended: in the Happy arm (no precedence guard fired), with the single
uniform draw r: Walk is returned iff intimacy exceeds 50 and r is below 0.3
(30% of draws, never when intimacy is at most 50); otherwise Idle is returned
iff r is below 0.5 — 20% of draws when intimacy exceeds 50 and 50% of draws
otherwise; otherwise Sit is returned. -/
theorem happy_branch_behavior (s : SophieState) (hour : ℕ) (rand : ℕ → ℚ)
    (hs : s.is_sleeping = false) (h1 : s.physiological.sleepiness ≤ 70)
    (h2 : 20 ≤ s.physiological.energy) (h3 : s.physiological.hunger ≤ 85)
    (he : s.emotion = .Happy) :
    decide_behavior s hour rand =
      (if 50 < s.relationship.intimacy ∧ rand 0 < 0.3 then .Walk
       else if rand 0 < 0.5 then .Idle else .Sit) ∧
    behaviorCount s hour .Walk =
      (if 50 < s.relationship.intimacy then 3000 else 0) ∧
    behaviorCount s hour .Idle =
      (if 50 < s.relationship.intimacy then 2000 else 5000) :=
  ⟨happy_arm_pointwise hour rand hs h1 h2 h3 he,
   happy_count_Walk hour hs h1 h2 h3 he,
   happy_count_Idle hour hs h1 h2 h3 he⟩

/-- Witness for C8 (amended): the exact weights at intimacy 51 and 50, and a
concrete draw landing in Idle. -/
theorem happy_branch_behavior_witness :
    behaviorCount happyHigh 12 .Walk = 3000 ∧
    behaviorCount happyHigh 12 .Idle = 2000 ∧
    behaviorCount happyLow 12 .Walk = 0 ∧
    behaviorCount happyLow 12 .Idle = 5000 ∧
    decide_behavior happyLow 12 (fun _ => 0.4) = .Idle := by
  have hh := happy_branch_behavior happyHigh 12 (fun _ => 0.4) rfl
    (by norm_num [happyHigh, midState]) (by norm_num [happyHigh, midState])
    (by norm_num [happyHigh, midState]) rfl
  have hl := happy_branch_behavior happyLow 12 (fun _ => 0.4) rfl
    (by norm_num [happyLow, midState]) (by norm_num [happyLow, midState])
    (by norm_num [happyLow, midState]) rfl
  refine ⟨?_, ?_, ?_, ?_, ?_⟩
  · rw [hh.2.1, if_pos (by norm_num [happyHigh])]
  · rw [hh.2.2, if_pos (by norm_num [happyHigh])]
  · rw [hl.2.1, if_neg (by norm_num [happyLow, midState])]
  · rw [hl.2.2, if_neg (by norm_num [happyLow, midState])]
  · rw [hl.1]
    norm_num [happyLow, midState]
